import Mathlib

/-!
Verification development for the linear-mcp repository (package `linear`).
The Go source is shallowly embedded: the dynamic `interface` values produced
by JSON decoding become the inductive type `GoVal`, Go maps become
association lists, each operation of the client is split into its pure
request-building part (variables and query text) and its pure
response-mapping part (a function from the decoded data map to a typed
record or an error), and the single HTTP round trip of `ExecuteGraphQL`
is parameterised by an explicit transport outcome.
Errors are modelled by the exact message strings the Go code produces with
fmt.Errorf; the spec error taxonomy maps onto them as follows:
TransportError = messages starting with "failed to make request" or
"failed to decode response"; HTTPStatusError = "received non-OK response";
MalformedResponseError = the "invalid ... format" messages;
MutationFailedError = the "... was not successful" messages;
GraphQLError list = "GraphQL errors: ...".
-/

namespace LinearMCP

/-- Dynamic value of Go type interface produced by JSON decoding, as used in
map[string]interface maps throughout the source. Numbers carry an Int
payload: vint models a Go int, vfloat models a float64 whose payload is
integral (no claim inspects non-integral float arithmetic, so the int and
float64 conversions of the source are value-preserving here). -/
inductive GoVal : Type where
  | vnull : GoVal
  | vbool (b : Bool) : GoVal
  | vint (n : Int) : GoVal
  | vfloat (n : Int) : GoVal
  | vstring (s : String) : GoVal
  | varr (elems : List GoVal) : GoVal
  | vobj (fields : List (String × GoVal)) : GoVal

/-- A Go map[string]interface value, as an association list (first match wins). -/
abbrev GoObj := List (String × GoVal)

/-- Association-list lookup; models reading a key from a Go map, where a
missing key is reported through the two-value comma-ok form. -/
def lookup : GoObj → String → Option GoVal
  | [], _ => none
  | (k, v) :: rest, key => if k = key then some v else lookup rest key

/-- Go type assertion v.(map[string]interface) on a map entry, comma-ok form:
some on an object value, none when the key is absent or of another type. -/
def getObj (m : GoObj) (key : String) : Option GoObj :=
  match lookup m key with
  | some (.vobj o) => some o
  | _ => none

/-- Go type assertion v.([]interface) on a map entry, comma-ok form. -/
def getArr (m : GoObj) (key : String) : Option (List GoVal) :=
  match lookup m key with
  | some (.varr a) => some a
  | _ => none

/-- Go type assertion v.(bool) on a map entry, comma-ok form. -/
def getBool (m : GoObj) (key : String) : Option Bool :=
  match lookup m key with
  | some (.vbool b) => some b
  | _ => none

/-- Comma-ok form of the Go type assertion v.(string) on a value. -/
def asStringOk (v : GoVal) : Option String :=
  match v with
  | .vstring s => some s
  | _ => none

/-- Go map indexing m[k] in the single-value form: a missing key yields the
zero value of interface, which is nil. -/
def indexVal (m : GoObj) (key : String) : GoVal :=
  (lookup m key).getD .vnull

/-- Embeds safeGetString from client.go: returns the string value of the key,
or the empty string when the key is absent or not a string. -/
def safeGetString (m : GoObj) (key : String) : String :=
  match lookup m key with
  | some v =>
    match v with
    | .vstring s => s
    | _ => ""
  | none => ""

/-- Embeds safeGetInt from client.go: an int is returned as is, a float64 is
converted to int (identity on the integral payloads modelled here), and
anything else yields 0. -/
def safeGetInt (m : GoObj) (key : String) : Int :=
  match lookup m key with
  | some v =>
    match v with
    | .vint n => n
    | .vfloat n => n
    | _ => 0
  | none => 0

/-- Embeds safeGetFloat64 from client.go: a float64 is returned as is, an int
is converted to float64 (identity on the payloads modelled here), and
anything else yields 0. -/
def safeGetFloat64 (m : GoObj) (key : String) : Int :=
  match lookup m key with
  | some v =>
    match v with
    | .vfloat n => n
    | .vint n => n
    | _ => 0
  | none => 0

/-- GetTeamIssuesOptions from issue.go. -/
structure GetTeamIssuesOptions : Type where
  First : Int

/-- GetIssueOptions from issue.go. -/
structure GetIssueOptions : Type where
  IncludeChildren : Bool
  ChildrenFirst : Int

/-- GetIssueChildrenOptions from issue.go. -/
structure GetIssueChildrenOptions : Type where
  First : Int

/-- GetProjectsOptions from project.go. -/
structure GetProjectsOptions : Type where
  First : Int
  State : String

/-- GetTeamProjectsOptions from teams.go. -/
structure GetTeamProjectsOptions : Type where
  First : Int

/-- GetProjectIssuesOptions from project.go. -/
structure GetProjectIssuesOptions : Type where
  First : Int

/-- Variables map built by GetTeamIssues: teamId plus the first count,
which is opts.First when opts is non-nil and 0 < First <= 100, else 50. -/
def GetTeamIssuesVariables (teamID : String) (opts : Option GetTeamIssuesOptions) : GoObj :=
  let first : Int :=
    match opts with
    | some o => if 0 < o.First ∧ o.First ≤ 100 then o.First else 50
    | none => 50
  [("teamId", .vstring teamID), ("first", .vint first)]

/-- Clamped first count computed by GetIssueChildren. -/
def GetIssueChildrenFirst (opts : Option GetIssueChildrenOptions) : Int :=
  match opts with
  | some o => if 0 < o.First ∧ o.First ≤ 100 then o.First else 50
  | none => 50

/-- Variables map built by GetIssueChildren: the issue id plus the first count. -/
def GetIssueChildrenVariables (issueID : String) (opts : Option GetIssueChildrenOptions) : GoObj :=
  [("id", .vstring issueID), ("first", .vint (GetIssueChildrenFirst opts))]

/-- Variables map built by GetProjects: only the first count. -/
def GetProjectsVariables (opts : Option GetProjectsOptions) : GoObj :=
  let first : Int :=
    match opts with
    | some o => if 0 < o.First ∧ o.First ≤ 100 then o.First else 50
    | none => 50
  [("first", .vint first)]

/-- Variables map built by GetTeamProjects in teams.go: only the team id.
The opts parameter is received but never read by the source function, so no
first variable is ever added. -/
def GetTeamProjectsVariables (teamID : String) (opts : Option GetTeamProjectsOptions) : GoObj :=
  [("teamId", .vstring teamID)]

/-- Variables map built by GetProjectIssues in project.go: only the project
id. The opts parameter is received but never read by the source function, so
no first variable is ever added. -/
def GetProjectIssuesVariables (projectID : String) (opts : Option GetProjectIssuesOptions) : GoObj :=
  [("projectId", .vstring projectID)]

/-- Modelled from the spec: the pagination rule of section 4.2, a
client-supplied first count, default 50, where a value outside the inclusive
range from 1 to 100 falls back to the default. Used to compare the
request-building code against the spec wording. -/
def specFirst (oFirst : Option Int) : Int :=
  match oFirst with
  | some f => if 1 ≤ f ∧ f ≤ 100 then f else 50
  | none => 50

/-- Filter clause built by GetProjects: empty when opts is nil or the State
field is empty, otherwise a filter fragment with the state embedded verbatim
between double quotes, with no escaping. -/
def GetProjectsFilterClause (opts : Option GetProjectsOptions) : String :=
  match opts with
  | some o =>
    if o.State ≠ "" then ", filter: \x7b state: \x7b eq: \"" ++ o.State ++ "\" \x7d \x7d"
    else ""
  | none => ""

/-- Query document template of GetProjects, with the filter clause substituted
at the percent-s position right after the first argument, exactly as the
fmt.Sprintf call in project.go does. -/
def GetProjectsQueryTemplate (filterClause : String) : String :=
  "query GetProjects($first: Int!) \x7b\n\t\tprojects(first: $first" ++ filterClause ++
  ") \x7b\n\t\t\tnodes \x7b\n\t\t\t\tid\n\t\t\t\tname\n\t\t\t\tdescription\n\t\t\t\ticon\n\t\t\t\tcolor\n\t\t\t\tstate\n\t\t\t\tcreatedAt\n\t\t\t\tupdatedAt\n\t\t\t\tstartedAt\n\t\t\t\ttargetDate\n\t\t\t\tsortOrder\n\t\t\t\turl\n\t\t\t\tlead \x7b\n\t\t\t\t\tid\n\t\t\t\t\tname\n\t\t\t\t\temail\n\t\t\t\t\x7d\n\t\t\t\tteams \x7b\n\t\t\t\t\tnodes \x7b\n\t\t\t\t\t\tid\n\t\t\t\t\t\tname\n\t\t\t\t\t\tkey\n\t\t\t\t\t\x7d\n\t\t\t\t\x7d\n\t\t\t\x7d\n\t\t\x7d\n\t\x7d"

/-- The query string GetProjects sends, as a function of its options. -/
def GetProjectsQuery (opts : Option GetProjectsOptions) : String :=
  GetProjectsQueryTemplate (GetProjectsFilterClause opts)

/-- Number of double-quote characters in a string, used to express that an
unescaped quote inside the state filter changes the query document shape. -/
def quoteCount (s : String) : Nat :=
  (s.toList.filter (fun c => c = '\"')).length

/-- WorkflowState record from issue.go. -/
structure WorkflowState : Type where
  ID : String
  Name : String

/-- User record from user.go. -/
structure User : Type where
  ID : String
  Name : String
  Email : String

/-- Team record from teams.go. -/
structure Team : Type where
  ID : String
  Name : String
  Key : String

/-- ProjectStatus record from teams.go. -/
structure ProjectStatus : Type where
  ID : String
  Name : String

mutual

/-- Issue record from issue.go; fields in source order. Inductive rather than
structure because Parent and Children are recursive and Project is mutually
recursive. -/
inductive Issue : Type where
  | mk (ID Identifier Title Description : String)
       (State : Option WorkflowState) (Assignee : Option User)
       (Project : Option Project) (Parent : Option Issue)
       (Children : List Issue) (Priority : Int)
       (CreatedAt UpdatedAt URL BranchName : String) : Issue

/-- Project record from project.go, the revision that carries the Status and
Issues fields; fields in source order. -/
inductive Project : Type where
  | mk (ID Name Description Icon Color State : String)
       (Status : Option ProjectStatus) (Lead : Option User)
       (Teams : List Team) (Issues : List Issue)
       (CreatedAt UpdatedAt StartedAt TargetDate : String)
       (SortOrder : Int) (URL : String) : Project

end

/-- Children field projection of Issue. -/
def Issue.Children : Issue → List Issue
  | .mk _ _ _ _ _ _ _ _ cs _ _ _ _ _ => cs

/-- Assignee field projection of Issue. -/
def Issue.Assignee : Issue → Option User
  | .mk _ _ _ _ _ a _ _ _ _ _ _ _ _ => a

/-- State field projection of Issue. -/
def Issue.State : Issue → Option WorkflowState
  | .mk _ _ _ _ st _ _ _ _ _ _ _ _ _ => st

/-- Parent field projection of Issue. -/
def Issue.Parent : Issue → Option Issue
  | .mk _ _ _ _ _ _ _ p _ _ _ _ _ _ => p

/-- ID field projection of Issue. -/
def Issue.ID : Issue → String
  | .mk i _ _ _ _ _ _ _ _ _ _ _ _ _ => i

/-- Assignment issue.Children = children performed by GetIssue. -/
def Issue.setChildren : Issue → List Issue → Issue
  | .mk a b c d e f g h _ j k l m n, cs => .mk a b c d e f g h cs j k l m n

/-- Lead field projection of Project. -/
def Project.Lead : Project → Option User
  | .mk _ _ _ _ _ _ _ l _ _ _ _ _ _ _ _ => l

/-- Teams field projection of Project. -/
def Project.Teams : Project → List Team
  | .mk _ _ _ _ _ _ _ _ ts _ _ _ _ _ _ _ => ts

/-- ProjectWithIssues record from project.go. -/
structure ProjectWithIssues : Type where
  ID : String
  Status : Option ProjectStatus
  Issues : List Issue

/-- TeamProject record from teams.go. -/
structure TeamProject : Type where
  ID : String
  Name : String
  SlugID : String
  Status : Option ProjectStatus

/-- Result of a Go call returning a value pointer and an error, where the
code can additionally panic through an unchecked type assertion: ok models a
non-nil value with a nil error, err models a nil value with a non-nil error
carrying the fmt.Errorf message, and panicked models a run-time panic. -/
inductive MapResult (α : Type) : Type where
  | ok (a : α) : MapResult α
  | err (msg : String) : MapResult α
  | panicked : MapResult α

/-- Sequencing of panic-prone steps: an error return or a panic propagates. -/
def MapResult.bind {α β : Type} : MapResult α → (α → MapResult β) → MapResult β
  | .ok a, f => f a
  | .err m, _ => .err m
  | .panicked, _ => .panicked

/-- Single-value Go type assertion v.(string): the value on success, a panic
otherwise (also when v is the nil interface from a missing map key). -/
def assertString (v : GoVal) : MapResult String :=
  match v with
  | .vstring s => .ok s
  | _ => .panicked

/-- Optional workflow-state sub-object mapping shared by the issue mappers:
present only when the state key holds an object. -/
def mapStateOpt (m : GoObj) : Option WorkflowState :=
  match getObj m "state" with
  | some sm => some ⟨safeGetString sm "id", safeGetString sm "name"⟩
  | none => none

/-- Optional assignee sub-object mapping with the email field, as in the
GetTeamIssues, GetIssue, GetIssueChildren and GetProjectIssues mappers. -/
def mapAssigneeOpt (m : GoObj) : Option User :=
  match getObj m "assignee" with
  | some am => some ⟨safeGetString am "id", safeGetString am "name", safeGetString am "email"⟩
  | none => none

/-- Optional assignee sub-object mapping without the email field, as in the
CreateIssue and UpdateIssue mappers. -/
def mapAssigneeNoEmailOpt (m : GoObj) : Option User :=
  match getObj m "assignee" with
  | some am => some ⟨safeGetString am "id", safeGetString am "name", ""⟩
  | none => none

/-- Optional lead sub-object mapping of the project mappers. -/
def mapLeadOpt (m : GoObj) : Option User :=
  match getObj m "lead" with
  | some lm => some ⟨safeGetString lm "id", safeGetString lm "name", safeGetString lm "email"⟩
  | none => none

/-- Optional status sub-object mapping of GetTeamProjects and
GetProjectIssues. -/
def mapStatusOpt (m : GoObj) : Option ProjectStatus :=
  match getObj m "status" with
  | some sm => some ⟨safeGetString sm "id", safeGetString sm "name"⟩
  | none => none

/-- Optional shallow parent sub-object mapping of the GetIssue, CreateIssue
and UpdateIssue mappers: only id, identifier and title are populated. -/
def mapParentOpt (m : GoObj) : Option Issue :=
  match getObj m "parent" with
  | some pm =>
    some (.mk (safeGetString pm "id") (safeGetString pm "identifier")
      (safeGetString pm "title") "" none none none none [] 0 "" "" "" "")
  | none => none

/-- Optional shallow project sub-object mapping of the CreateIssue and
UpdateIssue mappers: only id and name are populated. -/
def mapProjectRefOpt (m : GoObj) : Option Project :=
  match getObj m "project" with
  | some pm =>
    some (.mk (safeGetString pm "id") (safeGetString pm "name")
      "" "" "" "" none none [] [] "" "" "" "" 0 "")
  | none => none

/-- One node of the issue lists of GetTeamIssues and GetIssueChildren; the
two loops in issue.go map the same fields (no url, assignee with email). -/
def mapIssueListNode (nodeMap : GoObj) : Issue :=
  .mk (safeGetString nodeMap "id") (safeGetString nodeMap "identifier")
    (safeGetString nodeMap "title") (safeGetString nodeMap "description")
    (mapStateOpt nodeMap) (mapAssigneeOpt nodeMap) none none []
    (safeGetInt nodeMap "priority")
    (safeGetString nodeMap "createdAt") (safeGetString nodeMap "updatedAt")
    "" (safeGetString nodeMap "branchName")

/-- The primary issue mapping of GetIssue: scalar fields plus the optional
state, assignee and shallow parent sub-objects; Children is left unset. -/
def mapGetIssue (issueData : GoObj) : Issue :=
  .mk (safeGetString issueData "id") (safeGetString issueData "identifier")
    (safeGetString issueData "title") (safeGetString issueData "description")
    (mapStateOpt issueData) (mapAssigneeOpt issueData) none
    (mapParentOpt issueData) []
    (safeGetInt issueData "priority")
    (safeGetString issueData "createdAt") (safeGetString issueData "updatedAt")
    (safeGetString issueData "url") (safeGetString issueData "branchName")

/-- The issue mapping shared by the identical bodies of CreateIssue and
UpdateIssue: no createdAt or updatedAt, assignee without email, shallow
project and parent sub-objects. -/
def mapMutationIssue (issueData : GoObj) : Issue :=
  .mk (safeGetString issueData "id") (safeGetString issueData "identifier")
    (safeGetString issueData "title") (safeGetString issueData "description")
    (mapStateOpt issueData) (mapAssigneeNoEmailOpt issueData)
    (mapProjectRefOpt issueData) (mapParentOpt issueData) []
    (safeGetInt issueData "priority")
    "" ""
    (safeGetString issueData "url") (safeGetString issueData "branchName")

/-- The teams sub-list mapping of the project mappers: team nodes that are
not objects are skipped with continue. -/
def mapTeamsNodesSkip : List GoVal → List Team
  | [] => []
  | .vobj tm :: rest =>
    ⟨safeGetString tm "id", safeGetString tm "name", safeGetString tm "key"⟩ ::
      mapTeamsNodesSkip rest
  | _ :: rest => mapTeamsNodesSkip rest

/-- The optional teams association of the project mappers: populated only
when both the teams object and its nodes array are present. -/
def mapProjectTeams (pd : GoObj) : List Team :=
  match getObj pd "teams" with
  | some tmsObj =>
    match getArr tmsObj "nodes" with
    | some ns => mapTeamsNodesSkip ns
    | none => []
  | none => []

/-- The project mapping shared by the identical bodies of the GetProjects
loop, GetProject, CreateProject and UpdateProject: scalar fields plus the
optional lead and the teams sub-list; Status and Issues are never set. -/
def mapProjectFull (pd : GoObj) : Project :=
  .mk (safeGetString pd "id") (safeGetString pd "name")
    (safeGetString pd "description") (safeGetString pd "icon")
    (safeGetString pd "color") (safeGetString pd "state")
    none (mapLeadOpt pd) (mapProjectTeams pd) []
    (safeGetString pd "createdAt") (safeGetString pd "updatedAt")
    (safeGetString pd "startedAt") (safeGetString pd "targetDate")
    (safeGetFloat64 pd "sortOrder") (safeGetString pd "url")

/-- The node loops of the list fetchers that abort the whole call with an
error when a node is not an object (messages differ per operation). -/
def mapNodesStrict {α : Type} (f : GoObj → α) (msg : String) :
    List GoVal → Except String (List α)
  | [] => .ok []
  | .vobj nm :: rest =>
    match mapNodesStrict f msg rest with
    | .ok xs => .ok (f nm :: xs)
    | .error e => .error e
  | _ :: _ => .error msg

/-- Response mapping of GetTeamIssues in issue.go, from the decoded data map
to the issue list: the team object, its issues object and their nodes array
must all be present and well shaped, otherwise the call aborts with the
corresponding invalid-format error and a nil list. -/
def GetTeamIssuesResult (data : GoObj) : Except String (List Issue) :=
  match getObj data "team" with
  | none => .error "invalid team data format"
  | some teamData =>
    match getObj teamData "issues" with
    | none => .error "invalid issues data format"
    | some issuesData =>
      match getArr issuesData "nodes" with
      | none => .error "invalid issues nodes format"
      | some nodesData => mapNodesStrict mapIssueListNode "invalid issue node format" nodesData

/-- Response mapping of GetIssueChildren in issue.go. -/
def GetIssueChildrenResult (data : GoObj) : Except String (List Issue) :=
  match getObj data "issue" with
  | none => .error "invalid issue data format"
  | some issueData =>
    match getObj issueData "children" with
    | none => .error "invalid children data format"
    | some childrenData =>
      match getArr childrenData "nodes" with
      | none => .error "invalid children nodes format"
      | some nodesData => mapNodesStrict mapIssueListNode "invalid child node format" nodesData

/-- Response mapping of GetProjects in project.go. -/
def GetProjectsResult (data : GoObj) : Except String (List Project) :=
  match getObj data "projects" with
  | none => .error "invalid projects data format"
  | some projectsData =>
    match getArr projectsData "nodes" with
    | none => .error "invalid projects nodes format"
    | some nodesData => mapNodesStrict mapProjectFull "invalid project node format" nodesData

/-- One node of the team projects list of GetTeamProjects in teams.go. -/
def mapTeamProjectNode (nodeMap : GoObj) : TeamProject :=
  ⟨safeGetString nodeMap "id", safeGetString nodeMap "name",
    safeGetString nodeMap "slugId", mapStatusOpt nodeMap⟩

/-- Response mapping of GetTeamProjects in teams.go. -/
def GetTeamProjectsResult (data : GoObj) : Except String (List TeamProject) :=
  match getObj data "team" with
  | none => .error "invalid team data format"
  | some teamData =>
    match getObj teamData "projects" with
    | none => .error "invalid projects data format"
    | some projectsData =>
      match getArr projectsData "nodes" with
      | none => .error "invalid projects nodes format"
      | some nodesData => mapNodesStrict mapTeamProjectNode "invalid project node format" nodesData

/-- One node of the issue list of GetProjectIssues in project.go: only id,
title, description and the optional assignee are populated. -/
def mapProjectIssueNode (nodeMap : GoObj) : Issue :=
  .mk (safeGetString nodeMap "id") "" (safeGetString nodeMap "title")
    (safeGetString nodeMap "description") none (mapAssigneeOpt nodeMap)
    none none [] 0 "" "" "" ""

/-- The issue node loop of GetProjectIssues: nodes that are not objects are
skipped with continue, so a partial list can be produced. -/
def mapProjectIssueNodesSkip : List GoVal → List Issue
  | [] => []
  | .vobj nm :: rest => mapProjectIssueNode nm :: mapProjectIssueNodesSkip rest
  | _ :: rest => mapProjectIssueNodesSkip rest

/-- Response mapping of GetProjectIssues in project.go: only the top-level
project object is required; when the issues object or its nodes array is
absent or mis-shaped the Issues field is simply left unset and the call still
succeeds. -/
def GetProjectIssuesResult (data : GoObj) : Except String ProjectWithIssues :=
  match getObj data "project" with
  | none => .error "invalid project data format"
  | some projectData =>
    let issues : List Issue :=
      match getObj projectData "issues" with
      | some issuesData =>
        match getArr issuesData "nodes" with
        | some nodesData => mapProjectIssueNodesSkip nodesData
        | none => []
      | none => []
    .ok ⟨safeGetString projectData "id", mapStatusOpt projectData, issues⟩

/-- Response mapping of CreateIssue in issue.go: the issueCreate container
must be an object, its success field must be a bool holding true (false,
absent or mis-typed aborts with the mutation-failed error before any mapping
of the issue object), and only then is the issue object mapped. -/
def CreateIssueResult (data : GoObj) : Except String Issue :=
  match getObj data "issueCreate" with
  | none => .error "invalid issueCreate data format"
  | some containerData =>
    match getBool containerData "success" with
    | some true =>
      match getObj containerData "issue" with
      | none => .error "invalid issue data format"
      | some issueData => .ok (mapMutationIssue issueData)
    | _ => .error "issue creation was not successful"

/-- Response mapping of UpdateIssue in issue.go, same shape as CreateIssue
with the issueUpdate container. -/
def UpdateIssueResult (data : GoObj) : Except String Issue :=
  match getObj data "issueUpdate" with
  | none => .error "invalid issueUpdate data format"
  | some containerData =>
    match getBool containerData "success" with
    | some true =>
      match getObj containerData "issue" with
      | none => .error "invalid issue data format"
      | some issueData => .ok (mapMutationIssue issueData)
    | _ => .error "issue update was not successful"

/-- Response mapping of CreateProject in project.go. -/
def CreateProjectResult (data : GoObj) : Except String Project :=
  match getObj data "projectCreate" with
  | none => .error "invalid projectCreate data format"
  | some containerData =>
    match getBool containerData "success" with
    | some true =>
      match getObj containerData "project" with
      | none => .error "invalid project data format"
      | some projectData => .ok (mapProjectFull projectData)
    | _ => .error "project creation was not successful"

/-- Response mapping of UpdateProject in project.go. -/
def UpdateProjectResult (data : GoObj) : Except String Project :=
  match getObj data "projectUpdate" with
  | none => .error "invalid projectUpdate data format"
  | some containerData =>
    match getBool containerData "success" with
    | some true =>
      match getObj containerData "project" with
      | none => .error "invalid project data format"
      | some projectData => .ok (mapProjectFull projectData)
    | _ => .error "project update was not successful"

/-- The team node loop of GetTeams in teams.go, which uses single-value type
assertions on id, name and key: a node that is not an object aborts with an
error, and a scalar that is absent or not a string panics. -/
def mapTeamNodesUnchecked : List GoVal → MapResult (List Team)
  | [] => .ok []
  | node :: rest =>
    match node with
    | .vobj nm =>
      (assertString (indexVal nm "id")).bind fun i =>
        (assertString (indexVal nm "name")).bind fun n =>
          (assertString (indexVal nm "key")).bind fun k =>
            (mapTeamNodesUnchecked rest).bind fun ts =>
              .ok (⟨i, n, k⟩ :: ts)
    | _ => .err "invalid team node format"

/-- Response mapping of GetTeams in teams.go. -/
def GetTeamsResult (data : GoObj) : MapResult (List Team) :=
  match getObj data "teams" with
  | none => .err "invalid teams data format"
  | some teamsData =>
    match getArr teamsData "nodes" with
    | none => .err "invalid teams nodes format"
    | some nodesData => mapTeamNodesUnchecked nodesData

/-- Response mapping of GetViewer in user.go, which uses single-value type
assertions on id, name and email after the checked viewer object
extraction. -/
def GetViewerResult (data : GoObj) : MapResult User :=
  match getObj data "viewer" with
  | none => .err "invalid viewer data format"
  | some viewerData =>
    (assertString (indexVal viewerData "id")).bind fun i =>
      (assertString (indexVal viewerData "name")).bind fun n =>
        (assertString (indexVal viewerData "email")).bind fun e =>
          .ok ⟨i, n, e⟩

/-- GraphQLError record from client.go. -/
structure GraphQLError : Type where
  Message : String

/-- GraphQLResponse record from client.go; a nil data map is modelled by the
empty association list. -/
structure GraphQLResponse : Type where
  Data : GoObj
  Errors : List GraphQLError

/-- Outcome of the single HTTP round trip inside ExecuteGraphQL: either the
send itself fails with some underlying error text, or a response arrives
carrying a numeric status code, the human-readable status line, and a body
that the JSON decoder either accepts or rejects with some error text. The
marshal and request-construction steps of the source cannot fail on the
string and scalar variable maps this client builds and are not modelled. -/
inductive HTTPOutcome : Type where
  | sendError (errMsg : String) : HTTPOutcome
  | response (statusCode : Int) (status : String) (body : Except String GraphQLResponse) :
      HTTPOutcome

/-- Embeds the error-handling core of ExecuteGraphQL in client.go, returning
the Go pair of the response pointer and the error. A send failure and a
decode failure with status 200 yield the transport errors; a decode failure
with a status other than 200 yields the HTTP status error naming the status
line; a decodable body with a non-empty errors list yields both the decoded
response and the combined GraphQL error; otherwise the decoded response is
returned with a nil error. -/
def ExecuteGraphQL (outcome : HTTPOutcome) : Option GraphQLResponse × Option String :=
  match outcome with
  | .sendError e => (none, some ("failed to make request: " ++ e))
  | .response statusCode status body =>
    match body with
    | .error e =>
      if statusCode ≠ 200 then (none, some ("received non-OK response: " ++ status))
      else (none, some ("failed to decode response: " ++ e))
    | .ok result =>
      if 0 < result.Errors.length then
        (some result,
          some ("GraphQL errors: " ++
            String.intercalate "; " (result.Errors.map GraphQLError.Message)))
      else (some result, none)

/-- A request issued by an operation: the query document (by its embedded
file name, since the graphql files themselves are not part of the source
tree) together with the variables map. -/
structure Request : Type where
  queryName : String
  Variables : GoObj

/-- The children fetch performed by GetIssueChildren, parameterised by the
transport outcome of its single request. When the error component of
ExecuteGraphQL is nil the response pointer is always non-nil, so the getD
default is never read. -/
def GetIssueChildrenRun (issueID : String) (opts : Option GetIssueChildrenOptions)
    (t : HTTPOutcome) : Except String (List Issue) :=
  match ExecuteGraphQL t with
  | (_, some e) => .error e
  | (respOpt, none) => GetIssueChildrenResult (respOpt.getD ⟨[], []⟩).Data

/-- The request GetIssueChildren sends. -/
def GetIssueChildrenRequest (issueID : String) (opts : Option GetIssueChildrenOptions) :
    Request :=
  ⟨"get_issue_children.graphql", GetIssueChildrenVariables issueID opts⟩

/-- Embeds GetIssue from issue.go, parameterised by the transport outcomes of
the primary fetch and of the optional children fetch. The first component
lists the requests issued in order; the second is the Go pair of the issue
pointer and the error. With IncludeChildren set, a children-fetch failure
still returns the mapped primary issue next to the wrapped error. -/
def GetIssue (issueID : String) (opts : Option GetIssueOptions)
    (primaryT childrenT : HTTPOutcome) :
    List Request × (Option Issue × Option String) :=
  let req1 : Request := ⟨"get_issue.graphql", [("id", .vstring issueID)]⟩
  match ExecuteGraphQL primaryT with
  | (_, some e) => ([req1], (none, some e))
  | (respOpt, none) =>
    match getObj (respOpt.getD ⟨[], []⟩).Data "issue" with
    | none => ([req1], (none, some "invalid issue data format"))
    | some issueData =>
      let issue := mapGetIssue issueData
      match opts with
      | some o =>
        if o.IncludeChildren then
          let cFirst : Int :=
            if 0 < o.ChildrenFirst ∧ o.ChildrenFirst ≤ 100 then o.ChildrenFirst else 50
          let req2 := GetIssueChildrenRequest issueID (some ⟨cFirst⟩)
          match GetIssueChildrenRun issueID (some ⟨cFirst⟩) childrenT with
          | .ok children => ([req1, req2], (some (issue.setChildren children), none))
          | .error e => ([req1, req2], (some issue, some ("failed to load children: " ++ e)))
        else ([req1], (some issue, none))
      | none => ([req1], (some issue, none))

/-- The inline clamp used by every first-accepting operation agrees with the
spec-level pagination rule: the strict bound 0 < f of the code and the bound
1 <= f of the spec coincide on integers. -/
theorem clamp_eq_specFirst (f : Int) :
    (if 0 < f ∧ f ≤ 100 then f else 50) = specFirst (some f) := by
  unfold specFirst
  have h : ((0:Int) < f ∧ f ≤ 100) ↔ ((1:Int) ≤ f ∧ f ≤ 100) := by omega
  simp only [h]

/-- Quote counting distributes over string concatenation. -/
theorem quoteCount_append (a b : String) :
    quoteCount (a ++ b) = quoteCount a + quoteCount b := by
  have h : (a ++ b).toList = a.toList ++ b.toList := rfl
  simp [quoteCount, h, List.filter_append]

/-- C1, counterexample: GetTeamProjects with opts.First = 70 (inside the
claimed pass-through range) sends no first variable at all, only the team
id, so the claimed equality with opts.First fails. -/
theorem C1_counterexample :
    lookup (GetTeamProjectsVariables "team-1" (some ⟨70⟩)) "first" = none ∧
    GetTeamProjectsVariables "team-1" (some ⟨70⟩) = [("teamId", .vstring "team-1")] :=
  ⟨rfl, rfl⟩

/-- C1 (amended): GetTeamIssues, GetIssueChildren and GetProjects send a
first variable equal to opts.First when 1 <= opts.First <= 100 and equal to
the default 50 whenever opts is nil, non-positive or greater than 100, with
out-of-range values falling back to 50 rather than erroring or clamping to
the boundary (500 maps to 50, not 100); GetTeamProjects and GetProjectIssues
ignore their options and send no first variable for any opts value. -/
theorem C1_first_variable :
    (∀ teamID opts, lookup (GetTeamIssuesVariables teamID opts) "first"
        = some (.vint (specFirst (opts.map GetTeamIssuesOptions.First))))
  ∧ (∀ issueID opts, lookup (GetIssueChildrenVariables issueID opts) "first"
        = some (.vint (specFirst (opts.map GetIssueChildrenOptions.First))))
  ∧ (∀ opts, lookup (GetProjectsVariables opts) "first"
        = some (.vint (specFirst (opts.map GetProjectsOptions.First))))
  ∧ (∀ teamID opts, lookup (GetTeamProjectsVariables teamID opts) "first" = none)
  ∧ (∀ projectID opts, lookup (GetProjectIssuesVariables projectID opts) "first" = none)
  ∧ specFirst (some 500) = 50 ∧ specFirst (some 0) = 50 ∧ specFirst none = 50
  ∧ specFirst (some 100) = 100 ∧ specFirst (some 101) = 50 := by
  refine ⟨?_, ?_, ?_, fun _ _ => rfl, fun _ _ => rfl,
    by decide, by decide, rfl, by decide, by decide⟩
  · intro teamID opts
    cases opts with
    | none => rfl
    | some o => simp [GetTeamIssuesVariables, lookup, clamp_eq_specFirst]
  · intro issueID opts
    cases opts with
    | none => rfl
    | some o =>
      simp [GetIssueChildrenVariables, GetIssueChildrenFirst, lookup, clamp_eq_specFirst]
  · intro opts
    cases opts with
    | none => rfl
    | some o => simp [GetProjectsVariables, lookup, clamp_eq_specFirst]

/-- C9: a nil options pointer is never dereferenced (every guard in the
source tests opts against nil first, which the total Option match embeds)
and each call behaves exactly as with a zero-valued options record: the
first variable defaults to 50 where one is sent, no state filter is added,
and no children fetch is performed. -/
theorem C9_nil_options_safe :
    (∀ teamID, GetTeamIssuesVariables teamID none = GetTeamIssuesVariables teamID (some ⟨0⟩)
      ∧ lookup (GetTeamIssuesVariables teamID none) "first" = some (.vint 50))
  ∧ (∀ issueID primaryT childrenT,
      GetIssue issueID none primaryT childrenT
        = GetIssue issueID (some ⟨false, 0⟩) primaryT childrenT
      ∧ (GetIssue issueID none primaryT childrenT).1
        = [⟨"get_issue.graphql", [("id", .vstring issueID)]⟩])
  ∧ (∀ issueID, GetIssueChildrenVariables issueID none
        = GetIssueChildrenVariables issueID (some ⟨0⟩)
      ∧ lookup (GetIssueChildrenVariables issueID none) "first" = some (.vint 50))
  ∧ (GetProjectsVariables none = GetProjectsVariables (some ⟨0, ""⟩)
      ∧ lookup (GetProjectsVariables none) "first" = some (.vint 50)
      ∧ GetProjectsQuery none = GetProjectsQuery (some ⟨0, ""⟩)
      ∧ GetProjectsFilterClause none = "")
  ∧ (∀ teamID opts, GetTeamProjectsVariables teamID none
        = GetTeamProjectsVariables teamID opts)
  ∧ (∀ projectID opts, GetProjectIssuesVariables projectID none
        = GetProjectIssuesVariables projectID opts) := by
  refine ⟨fun teamID => ⟨rfl, rfl⟩, ?_, fun issueID => ⟨rfl, rfl⟩,
    ⟨rfl, rfl, rfl, rfl⟩, fun _ _ => rfl, fun _ _ => rfl⟩
  intro issueID pT cT
  constructor
  · rcases hE : ExecuteGraphQL pT with ⟨ro, eo⟩
    cases eo with
    | some e => simp [GetIssue, hE]
    | none =>
      cases h2 : getObj (ro.getD ⟨[], []⟩).Data "issue" with
      | none => simp [GetIssue, hE, h2]
      | some d => simp [GetIssue, hE, h2]
  · rcases hE : ExecuteGraphQL pT with ⟨ro, eo⟩
    cases eo with
    | some e => simp [GetIssue, hE]
    | none =>
      cases h2 : getObj (ro.getD ⟨[], []⟩).Data "issue" with
      | none => simp [GetIssue, hE, h2]
      | some d => simp [GetIssue, hE, h2]

/-- C10: the query string GetProjects sends is a deterministic function of
opts.State alone: the fixed template when the state is empty or opts is nil,
and otherwise the template with the filter fragment inserted right after the
first argument, the state embedded verbatim with no escaping, so every
double-quote character of the state adds a quote to the document on top of
the two delimiting ones and thereby changes its structure. -/
theorem C10_get_projects_query :
    (GetProjectsQuery none = GetProjectsQueryTemplate "")
  ∧ (∀ f, GetProjectsQuery (some ⟨f, ""⟩) = GetProjectsQueryTemplate "")
  ∧ (∀ f s, s ≠ "" → GetProjectsQuery (some ⟨f, s⟩) =
      GetProjectsQueryTemplate (", filter: \x7b state: \x7b eq: \"" ++ s ++ "\" \x7d \x7d"))
  ∧ (∀ f s, s ≠ "" → quoteCount (GetProjectsQuery (some ⟨f, s⟩)) =
      quoteCount (GetProjectsQueryTemplate "") + 2 + quoteCount s) := by
  have h3 : ∀ f s, s ≠ "" → GetProjectsQuery (some ⟨f, s⟩) =
      GetProjectsQueryTemplate (", filter: \x7b state: \x7b eq: \"" ++ s ++ "\" \x7d \x7d") := by
    intro f s hs
    simp [GetProjectsQuery, GetProjectsFilterClause, hs]
  refine ⟨rfl, fun f => rfl, h3, ?_⟩
  intro f s hs
  rw [h3 f s hs]
  unfold GetProjectsQueryTemplate
  simp only [quoteCount_append]
  have a1 : quoteCount ", filter: \x7b state: \x7b eq: \"" = 1 := rfl
  have a2 : quoteCount "\" \x7d \x7d" = 1 := rfl
  have a3 : quoteCount "" = 0 := rfl
  omega

/-- C10, witness: a concrete state value produces exactly the template with
the verbatim filter fragment. -/
theorem C10_get_projects_query_witness :
    GetProjectsQuery (some ⟨10, "started"⟩) =
      GetProjectsQueryTemplate ", filter: \x7b state: \x7b eq: \"started\" \x7d \x7d" :=
  C10_get_projects_query.2.2.1 10 "started" (by decide)

/-- C2: for each of the four mutations, whenever the mutation container is
present but its success field is false, absent or not a boolean, the call
returns the mutation-failed error with a nil record, before any mapping of
the secondary issue or project object, even when a populated one is present
in the response. -/
theorem C2_mutation_success_gate :
    (∀ data cd, getObj data "issueCreate" = some cd → getBool cd "success" ≠ some true →
      CreateIssueResult data = .error "issue creation was not successful")
  ∧ (∀ data cd, getObj data "issueUpdate" = some cd → getBool cd "success" ≠ some true →
      UpdateIssueResult data = .error "issue update was not successful")
  ∧ (∀ data cd, getObj data "projectCreate" = some cd → getBool cd "success" ≠ some true →
      CreateProjectResult data = .error "project creation was not successful")
  ∧ (∀ data cd, getObj data "projectUpdate" = some cd → getBool cd "success" ≠ some true →
      UpdateProjectResult data = .error "project update was not successful") := by
  refine ⟨?_, ?_, ?_, ?_⟩ <;>
  · intro data cd h1 h2
    rcases h3 : getBool cd "success" with _ | b
    · simp [CreateIssueResult, UpdateIssueResult, CreateProjectResult, UpdateProjectResult,
        h1, h3]
    · cases b
      · simp [CreateIssueResult, UpdateIssueResult, CreateProjectResult, UpdateProjectResult,
          h1, h3]
      · exact absurd h3 h2

/-- C2, witness: a response with success false and a fully populated issue
object still yields the mutation-failed error and no record. -/
theorem C2_mutation_success_gate_witness :
    CreateIssueResult [("issueCreate", .vobj [("success", .vbool false),
        ("issue", .vobj [("id", .vstring "i1"), ("title", .vstring "T")])])]
      = .error "issue creation was not successful" :=
  C2_mutation_success_gate.1 _ _ rfl (by decide)

/-- C3, counterexample: a GetProjectIssues response whose project object
carries no issues key (hence no nodes array) succeeds with an empty issue
list instead of returning a malformed-response error, contradicting the
claim for that operation. -/
theorem C3_counterexample :
    GetProjectIssuesResult [("project", .vobj [("id", .vstring "p1")])]
      = .ok ⟨"p1", none, []⟩ := rfl

/-- C3 (amended): GetTeams, GetTeamIssues, GetProjects, GetTeamProjects and
GetIssueChildren return the malformed-response error naming the missing key
together with a nil result whenever the expected container or its nodes
array is absent or mis-shaped; GetProjectIssues however tolerates a missing
or mis-shaped issues container and succeeds with the Issues association left
unset. -/
theorem C3_list_container_checks :
    (∀ d, getObj d "teams" = none → GetTeamsResult d = .err "invalid teams data format")
  ∧ (∀ d t, getObj d "teams" = some t → getArr t "nodes" = none →
      GetTeamsResult d = .err "invalid teams nodes format")
  ∧ (∀ d, getObj d "team" = none → GetTeamIssuesResult d = .error "invalid team data format")
  ∧ (∀ d t, getObj d "team" = some t → getObj t "issues" = none →
      GetTeamIssuesResult d = .error "invalid issues data format")
  ∧ (∀ d t i, getObj d "team" = some t → getObj t "issues" = some i →
      getArr i "nodes" = none → GetTeamIssuesResult d = .error "invalid issues nodes format")
  ∧ (∀ d, getObj d "projects" = none →
      GetProjectsResult d = .error "invalid projects data format")
  ∧ (∀ d p, getObj d "projects" = some p → getArr p "nodes" = none →
      GetProjectsResult d = .error "invalid projects nodes format")
  ∧ (∀ d, getObj d "team" = none → GetTeamProjectsResult d = .error "invalid team data format")
  ∧ (∀ d t, getObj d "team" = some t → getObj t "projects" = none →
      GetTeamProjectsResult d = .error "invalid projects data format")
  ∧ (∀ d t p, getObj d "team" = some t → getObj t "projects" = some p →
      getArr p "nodes" = none → GetTeamProjectsResult d = .error "invalid projects nodes format")
  ∧ (∀ d, getObj d "issue" = none →
      GetIssueChildrenResult d = .error "invalid issue data format")
  ∧ (∀ d i, getObj d "issue" = some i → getObj i "children" = none →
      GetIssueChildrenResult d = .error "invalid children data format")
  ∧ (∀ d i c, getObj d "issue" = some i → getObj i "children" = some c →
      getArr c "nodes" = none → GetIssueChildrenResult d = .error "invalid children nodes format")
  ∧ (∀ d pd, getObj d "project" = some pd → getObj pd "issues" = none →
      GetProjectIssuesResult d = .ok ⟨safeGetString pd "id", mapStatusOpt pd, []⟩) := by
  refine ⟨?_, ?_, ?_, ?_, ?_, ?_, ?_, ?_, ?_, ?_, ?_, ?_, ?_, ?_⟩ <;>
    intros <;> simp_all [GetTeamsResult, GetTeamIssuesResult, GetProjectsResult,
      GetTeamProjectsResult, GetIssueChildrenResult, GetProjectIssuesResult]

/-- C3, witness: a teams container without a nodes array aborts GetTeams
with the malformed-response error naming the nodes key. -/
theorem C3_list_container_checks_witness :
    GetTeamsResult [("teams", .vobj [("foo", .vstring "x")])]
      = .err "invalid teams nodes format" :=
  C3_list_container_checks.2.1 _ _ rfl rfl

/-- C4, counterexample: GetViewer panics on a viewer object whose id field
is present but an integer, because the source uses an unchecked type
assertion there, contradicting the claim that a wrong-typed scalar maps to
the zero value and never panics. -/
theorem C4_counterexample :
    GetViewerResult [("viewer", .vobj [("id", .vint 42), ("name", .vstring "N"),
      ("email", .vstring "n@example.com")])] = .panicked := rfl

/-- C4 (amended): the safe helpers are total and map an absent or
wrong-typed scalar to the zero value, and the mappers built on them leave an
absent optional sub-object (assignee, state, parent, lead) unset; GetViewer
and GetTeams however use unchecked type assertions and panic when a scalar
field is absent or present with the wrong type. -/
theorem C4_safe_extraction :
    (∀ m k v, lookup m k = some v → asStringOk v = none → safeGetString m k = "")
  ∧ (∀ m k, lookup m k = none →
      safeGetString m k = "" ∧ safeGetInt m k = 0 ∧ safeGetFloat64 m k = 0)
  ∧ (∀ m k b, lookup m k = some (.vbool b) →
      safeGetString m k = "" ∧ safeGetInt m k = 0 ∧ safeGetFloat64 m k = 0)
  ∧ (∀ nodeMap, getObj nodeMap "assignee" = none → (mapIssueListNode nodeMap).Assignee = none)
  ∧ (∀ nodeMap, getObj nodeMap "state" = none → (mapIssueListNode nodeMap).State = none)
  ∧ (∀ issueData, getObj issueData "parent" = none → (mapGetIssue issueData).Parent = none)
  ∧ (∀ pd, getObj pd "lead" = none → (mapProjectFull pd).Lead = none)
  ∧ (∀ d vd, getObj d "viewer" = some vd → asStringOk (indexVal vd "id") = none →
      GetViewerResult d = .panicked)
  ∧ GetTeamsResult [("teams", .vobj [("nodes", .varr [.vobj [("id", .vint 7)]])])]
      = .panicked := by
  refine ⟨?_, ?_, ?_, ?_, ?_, ?_, ?_, ?_, rfl⟩
  · intro m k v h1 h2
    cases v <;> simp_all [safeGetString, asStringOk]
  · intro m k h
    simp [safeGetString, safeGetInt, safeGetFloat64, h]
  · intro m k b h
    simp [safeGetString, safeGetInt, safeGetFloat64, h]
  · intro nodeMap h
    simp [mapIssueListNode, Issue.Assignee, mapAssigneeOpt, h]
  · intro nodeMap h
    simp [mapIssueListNode, Issue.State, mapStateOpt, h]
  · intro issueData h
    simp [mapGetIssue, Issue.Parent, mapParentOpt, h]
  · intro pd h
    simp [mapProjectFull, Project.Lead, mapLeadOpt, h]
  · intro d vd h1 h2
    simp only [GetViewerResult, h1]
    cases hI : indexVal vd "id" <;>
      simp_all [assertString, asStringOk, MapResult.bind]

/-- C4, witness: a title field holding a number maps to the empty string. -/
theorem C4_safe_extraction_witness :
    safeGetString [("title", .vint 3)] "title" = "" :=
  C4_safe_extraction.1 _ "title" _ rfl rfl

/-- C5, counterexample: the combined error message carries the prefix
GraphQL errors and a colon before the joined messages, so it is not equal to
the bare concatenation of the error messages joined by the separator. -/
theorem C5_counterexample :
    (ExecuteGraphQL (.response 200 "200 OK" (.ok ⟨[], [⟨"not found"⟩]⟩))).2
        = some "GraphQL errors: not found"
    ∧ "GraphQL errors: not found" ≠ String.intercalate "; " ["not found"] :=
  ⟨rfl, by decide⟩

/-- C5 (amended): a decoded body with a non-empty errors list makes
ExecuteGraphQL return both the decoded partial response and a single
non-nil error whose message is the prefix GraphQL errors, a colon and a
space, followed by all the error messages joined with the semicolon-space
separator. -/
theorem C5_graphql_errors_joined :
    ∀ statusCode status resp, resp.Errors ≠ [] →
      ExecuteGraphQL (.response statusCode status (.ok resp)) =
        (some resp, some ("GraphQL errors: " ++
          String.intercalate "; " (resp.Errors.map GraphQLError.Message))) := by
  intro sc st resp h
  have hl : 0 < resp.Errors.length := List.length_pos.mpr h
  simp [ExecuteGraphQL, hl]

/-- C5, witness: two error messages are joined with the separator behind the
prefix, next to the decoded response. -/
theorem C5_graphql_errors_joined_witness :
    ExecuteGraphQL (.response 200 "200 OK" (.ok ⟨[], [⟨"a"⟩, ⟨"b"⟩]⟩)) =
      (some ⟨[], [⟨"a"⟩, ⟨"b"⟩]⟩, some "GraphQL errors: a; b") :=
  C5_graphql_errors_joined 200 "200 OK" ⟨[], [⟨"a"⟩, ⟨"b"⟩]⟩ nofun

/-- C6: a send failure is a transport error; a body that fails to decode is
a transport error when the status is 200 and an HTTP status error naming the
status line otherwise; a decodable body with a status other than 200 and no
GraphQL errors is not an error at all. The source tests the status against
the OK constant 200, which this statement embeds as the success status. -/
theorem C6_transport_errors :
    (∀ e, ExecuteGraphQL (.sendError e) = (none, some ("failed to make request: " ++ e)))
  ∧ (∀ statusCode status e, statusCode ≠ 200 →
      ExecuteGraphQL (.response statusCode status (.error e)) =
        (none, some ("received non-OK response: " ++ status)))
  ∧ (∀ status e, ExecuteGraphQL (.response 200 status (.error e)) =
      (none, some ("failed to decode response: " ++ e)))
  ∧ (∀ statusCode status resp, resp.Errors = [] →
      ExecuteGraphQL (.response statusCode status (.ok resp)) = (some resp, none)) := by
  refine ⟨fun e => rfl, ?_, ?_, ?_⟩
  · intro sc st e h
    simp [ExecuteGraphQL, h]
  · intro st e
    simp [ExecuteGraphQL]
  · intro sc st resp h
    simp [ExecuteGraphQL, h]

/-- C6, witness: a 503 status with an undecodable body yields the HTTP
status error naming the status line. -/
theorem C6_transport_errors_witness :
    ExecuteGraphQL (.response 503 "503 Service Unavailable" (.error "invalid character"))
      = (none, some "received non-OK response: 503 Service Unavailable") :=
  C6_transport_errors.2.1 503 "503 Service Unavailable" "invalid character" (by decide)

/-- Clamping an already clamped value is the identity: GetIssue hands the
clamped children count to GetIssueChildren, whose own clamp then keeps it. -/
theorem specFirst_reclamp (f : Int) :
    GetIssueChildrenFirst (some ⟨specFirst (some f)⟩) = specFirst (some f) := by
  by_cases h : (1:Int) ≤ f ∧ f ≤ 100
  · have h2 : (0:Int) < f ∧ f ≤ 100 := by omega
    simp [specFirst, GetIssueChildrenFirst, h, h2]
  · simp [specFirst, GetIssueChildrenFirst, h]

/-- Overwriting the Children field stores exactly the given list. -/
theorem setChildren_Children (i : Issue) (cs : List Issue) :
    (i.setChildren cs).Children = cs := by
  cases i
  rfl

/-- C7: with IncludeChildren set and a successful primary fetch, GetIssue
issues exactly the primary request followed by one children request whose
first variable is ChildrenFirst clamped into the range from 1 to 100 with
default 50, and when the children fetch succeeds the fetched children are
stored in the Children field of the returned issue; with nil options or
IncludeChildren unset, exactly one request is issued and Children is left
unset. -/
theorem C7_children_fetch :
    (∀ issueID o primaryT childrenT resp issueData,
      o.IncludeChildren = true →
      ExecuteGraphQL primaryT = (some resp, none) →
      getObj resp.Data "issue" = some issueData →
      ((GetIssue issueID (some o) primaryT childrenT).1 =
          [⟨"get_issue.graphql", [("id", .vstring issueID)]⟩,
           ⟨"get_issue_children.graphql",
             [("id", .vstring issueID), ("first", .vint (specFirst (some o.ChildrenFirst)))]⟩]
        ∧ ∀ cs, GetIssueChildrenRun issueID (some ⟨specFirst (some o.ChildrenFirst)⟩) childrenT
              = .ok cs →
            (GetIssue issueID (some o) primaryT childrenT).2 =
              (some ((mapGetIssue issueData).setChildren cs), none)
            ∧ ((mapGetIssue issueData).setChildren cs).Children = cs))
  ∧ (∀ issueID primaryT childrenT,
      (GetIssue issueID none primaryT childrenT).1 =
          [⟨"get_issue.graphql", [("id", .vstring issueID)]⟩]
        ∧ ∀ resp issueData, ExecuteGraphQL primaryT = (some resp, none) →
            getObj resp.Data "issue" = some issueData →
            (GetIssue issueID none primaryT childrenT).2 = (some (mapGetIssue issueData), none)
            ∧ (mapGetIssue issueData).Children = [])
  ∧ (∀ issueID cf primaryT childrenT,
      (GetIssue issueID (some ⟨false, cf⟩) primaryT childrenT).1 =
          [⟨"get_issue.graphql", [("id", .vstring issueID)]⟩]
        ∧ ∀ resp issueData, ExecuteGraphQL primaryT = (some resp, none) →
            getObj resp.Data "issue" = some issueData →
            (GetIssue issueID (some ⟨false, cf⟩) primaryT childrenT).2 =
              (some (mapGetIssue issueData), none)
            ∧ (mapGetIssue issueData).Children = []) := by
  refine ⟨?_, ?_, ?_⟩
  · intro issueID o pT cT resp issueData hInc hE hD
    have hclamp := clamp_eq_specFirst o.ChildrenFirst
    refine ⟨?_, ?_⟩
    · cases hR : GetIssueChildrenRun issueID (some ⟨specFirst (some o.ChildrenFirst)⟩) cT with
      | ok cs =>
        simp [GetIssue, hE, hD, hInc, hclamp, hR, GetIssueChildrenRequest,
          GetIssueChildrenVariables, specFirst_reclamp]
      | error e =>
        simp [GetIssue, hE, hD, hInc, hclamp, hR, GetIssueChildrenRequest,
          GetIssueChildrenVariables, specFirst_reclamp]
    · intro cs hR
      refine ⟨?_, setChildren_Children _ _⟩
      simp [GetIssue, hE, hD, hInc, hclamp, hR]
  · intro issueID pT cT
    constructor
    · rcases hE : ExecuteGraphQL pT with ⟨ro, eo⟩
      cases eo with
      | some e => simp [GetIssue, hE]
      | none =>
        cases h2 : getObj (ro.getD ⟨[], []⟩).Data "issue" with
        | none => simp [GetIssue, hE, h2]
        | some d => simp [GetIssue, hE, h2]
    · intro resp issueData hE hD
      exact ⟨by simp [GetIssue, hE, hD], rfl⟩
  · intro issueID cf pT cT
    constructor
    · rcases hE : ExecuteGraphQL pT with ⟨ro, eo⟩
      cases eo with
      | some e => simp [GetIssue, hE]
      | none =>
        cases h2 : getObj (ro.getD ⟨[], []⟩).Data "issue" with
        | none => simp [GetIssue, hE, h2]
        | some d => simp [GetIssue, hE, h2]
    · intro resp issueData hE hD
      exact ⟨by simp [GetIssue, hE, hD], rfl⟩

/-- C7, witness: with IncludeChildren set and ChildrenFirst left 0, the
children request carries the default first of 50 behind the primary
request. -/
theorem C7_children_fetch_witness :
    (GetIssue "i1" (some ⟨true, 0⟩)
        (.response 200 "200 OK" (.ok ⟨[("issue", .vobj [("id", .vstring "i1")])], []⟩))
        (.response 200 "200 OK"
          (.ok ⟨[("issue", .vobj [("children", .vobj [("nodes", .varr [])])])], []⟩))).1
      = [⟨"get_issue.graphql", [("id", .vstring "i1")]⟩,
         ⟨"get_issue_children.graphql", [("id", .vstring "i1"), ("first", .vint 50)]⟩] :=
  (C7_children_fetch.1 "i1" ⟨true, 0⟩
    (.response 200 "200 OK" (.ok ⟨[("issue", .vobj [("id", .vstring "i1")])], []⟩))
    (.response 200 "200 OK"
      (.ok ⟨[("issue", .vobj [("children", .vobj [("nodes", .varr [])])])], []⟩))
    ⟨[("issue", .vobj [("id", .vstring "i1")])], []⟩
    [("id", .vstring "i1")] rfl rfl rfl).1

/-- C8: with IncludeChildren set, when the primary fetch succeeds and maps
but the children fetch fails, GetIssue returns the fully mapped primary
issue with Children unset together with the wrapped non-nil error, not a nil
result. -/
theorem C8_children_failure_keeps_issue :
    ∀ issueID o primaryT childrenT resp issueData e,
      o.IncludeChildren = true →
      ExecuteGraphQL primaryT = (some resp, none) →
      getObj resp.Data "issue" = some issueData →
      GetIssueChildrenRun issueID (some ⟨specFirst (some o.ChildrenFirst)⟩) childrenT
        = .error e →
      (GetIssue issueID (some o) primaryT childrenT).2 =
        (some (mapGetIssue issueData), some ("failed to load children: " ++ e))
      ∧ (mapGetIssue issueData).Children = [] := by
  intro issueID o pT cT resp issueData e hInc hE hD hR
  have hclamp := clamp_eq_specFirst o.ChildrenFirst
  exact ⟨by simp [GetIssue, hE, hD, hInc, hclamp, hR], rfl⟩

/-- C8, witness: a children fetch whose transport send fails makes GetIssue
return the mapped primary issue next to the wrapped transport error. -/
theorem C8_children_failure_keeps_issue_witness :
    (GetIssue "i1" (some ⟨true, 70⟩)
        (.response 200 "200 OK" (.ok ⟨[("issue", .vobj [("id", .vstring "i1")])], []⟩))
        (.sendError "boom")).2
      = (some (mapGetIssue [("id", .vstring "i1")]),
         some "failed to load children: failed to make request: boom") :=
  (C8_children_failure_keeps_issue "i1" ⟨true, 70⟩
    (.response 200 "200 OK" (.ok ⟨[("issue", .vobj [("id", .vstring "i1")])], []⟩))
    (.sendError "boom")
    ⟨[("issue", .vobj [("id", .vstring "i1")])], []⟩
    [("id", .vstring "i1")]
    "failed to make request: boom" rfl rfl rfl rfl).1

end LinearMCP
